import Mathlib

/-!
Shallow embedding of src/conference_backend.js, an Express + MySQL
conference backend.  Database tables become lists of rows, and each
endpoint handler becomes a Lean function from the store state and the
request fields to the new state and the HTTP response it produces.
External collaborators (bcrypt, QRCode, nodemailer) enter as function
parameters or explicit success flags, because only their results are
observable to the handlers.
-/

/-- Row of the participants table.  Columns touched by the handlers:
participant_id, name, email, password_hash, qr_code, and
sessions_registered, a nullable string column that the register-session
handler mutates through CONCAT. -/
structure Participant where
  participant_id : Nat
  name : String
  email : String
  password_hash : String
  qr_code : String
  sessions_registered : Option String
deriving DecidableEq

/-- Row of the attendance table.  check_in_time is a nullable DATETIME;
the INSERT in the check-in handler names only participant_id and
session_id, so the column keeps its NULL default (none). -/
structure AttendanceRecord where
  participant_id : Nat
  session_id : Nat
  check_in_time : Option Nat
deriving DecidableEq

/-- Row of the tracks_sessions table, restricted to the columns the
check-in handler reads: session_id and capacity.  The remaining columns
(track, session_name, speaker, time, venue) influence none of the
modelled operations.  capacity is an SQL INT, kept as Int. -/
structure SessionRow where
  session_id : Nat
  capacity : Int
deriving DecidableEq

/-- The JSON bodies the handlers send with res.json: an error field, a
bare message field, a message together with the full participant row
(login), or a message together with the fresh insertId (register). -/
inductive ResponseBody where
  | error (err : String)
  | message (msg : String)
  | loginSuccess (msg : String) (participant : Participant)
  | registerSuccess (msg : String) (participant_id : Nat)
deriving DecidableEq

/-- An HTTP response: status code and JSON body. -/
structure Response where
  status : Nat
  body : ResponseBody
deriving DecidableEq

/-- POST /login: SELECT star FROM participants WHERE email = ?, take
rows[0]; when there is no row, or bcrypt.compare rejects the password
(the short-circuit skips compare when there is no row), answer 401 with
one shared error body; otherwise answer 200 with the message and the
whole participant row in the body.  bcrypt.compare is the verify
parameter. -/
def login (db : List Participant) (verify : String → String → Bool)
    (email password : String) : Response :=
  match db.find? (fun p => p.email == email) with
  | none => ⟨401, .error "Invalid email or password"⟩
  | some participant =>
    if verify password participant.password_hash then
      ⟨200, .loginSuccess "Login successful" participant⟩
    else
      ⟨401, .error "Invalid email or password"⟩

/-- POST /register: hash the password with bcrypt, build the QR data URL
from name and email with QRCode.toDataURL, INSERT the participant, then
await transporter.sendMail.  The participants table declares
UNIQUE(email), so a duplicate email makes the INSERT throw; every throw
lands in the one catch block, which answers 500 with the generic error
body and nothing else.  A sendMail failure throws after the INSERT has
already committed and there is no transaction, so the new row stays in
place while the same 500 body is sent.  hash and mkQr stand for
bcrypt.hash and QRCode.toDataURL; mailOk tells whether sendMail
succeeds. -/
def registerUser (db : List Participant) (nextId : Nat)
    (hash : String → String) (mkQr : String → String → String)
    (mailOk : Bool) (name email password : String) :
    List Participant × Response :=
  if db.any (fun p => p.email == email) then
    (db, ⟨500, .error "Error registering participant"⟩)
  else
    let row : Participant :=
      ⟨nextId, name, email, hash password, mkQr name email, none⟩
    if mailOk then
      (db ++ [row], ⟨201, .registerSuccess "Registration successful" nextId⟩)
    else
      (db ++ [row], ⟨500, .error "Error registering participant"⟩)

/-- The SQL expression IFNULL(CONCAT(sessions_registered, ?, ","), ?)
applied to the current column value: CONCAT with NULL yields NULL, so a
NULL column becomes the bare session id, while a non-NULL one gets the
id and a trailing comma appended. -/
def appendSession (cur : Option String) (session_id : Nat) : Option String :=
  match cur with
  | none => some (toString session_id)
  | some s => some (s ++ toString session_id ++ ",")

/-- POST /register-session: a single UPDATE on participants keyed by
participant_id, applying appendSession to sessions_registered.  Neither
id is checked for existence, and the handler answers 200 whether or not
any row matched the WHERE clause. -/
def registerSession (db : List Participant) (participant_id session_id : Nat) :
    List Participant × Response :=
  (db.map (fun p =>
      if p.participant_id == participant_id then
        { p with sessions_registered := appendSession p.sessions_registered session_id }
      else p),
   ⟨200, .message "Session registration successful"⟩)

/-- The subquery SELECT COUNT(star) FROM attendance WHERE session_id = ?:
the number of attendance rows of the given session. -/
def admittedCount (att : List AttendanceRecord) (sid : Nat) : Nat :=
  (att.filter (fun r => r.session_id == sid)).length

/-- Store state for the check-in flow: the tracks_sessions table and the
attendance table. -/
structure CheckInState where
  sessions : List SessionRow
  attendance : List AttendanceRecord
deriving DecidableEq

/-- The SELECT of the check-in handler on tracks_sessions by
session_id. -/
def findSession (sessions : List SessionRow) (sid : Nat) : Option SessionRow :=
  sessions.find? (fun s => s.session_id == sid)

/-- POST /check-in: one SELECT reading the capacity and the current
attendance count, then, when registered < capacity, an INSERT of
(participant_id, session_id) that leaves check_in_time NULL, answered by
a bare success message; registered >= capacity answers 400 "Session is
full" and inserts nothing.  An unknown session makes the destructuring
of the empty result set throw, which the catch block answers with 500
and no state change.  The foreign keys of the attendance table are not
modelled: they can only suppress inserts, which no claim below relies
on, and every concrete input below uses ids meant to exist. -/
def checkIn (st : CheckInState) (participant_id session_id : Nat) :
    CheckInState × Response :=
  match findSession st.sessions session_id with
  | none => (st, ⟨500, .error "Error during check-in"⟩)
  | some s =>
    if (admittedCount st.attendance session_id : Int) ≥ s.capacity then
      (st, ⟨400, .error "Session is full"⟩)
    else
      ({ st with attendance := st.attendance ++ [⟨participant_id, session_id, none⟩] },
       ⟨200, .message "Check-in successful"⟩)

/-- A sequence of check-in requests handled one after the other; each
pair is (participant_id, session_id). -/
def runCheckIns (st : CheckInState) (ops : List (Nat × Nat)) : CheckInState :=
  ops.foldl (fun acc op => (checkIn acc op.1 op.2).1) st

/-- A check-in request split at its two await points: the SELECT that
reads the attendance count and the INSERT that writes the new row.  The
handler issues the two as separate queries on a shared pool with no
transaction or lock, so the steps of different in-flight requests may
interleave freely.  Each step is tagged with the participant_id of the
request performing it. -/
inductive MicroStep where
  | sel (participant_id : Nat)
  | ins (participant_id : Nat)
deriving DecidableEq

/-- State of several in-flight check-in requests on one session: the
attendance table, the count each request observed with its SELECT, and
the responses already sent. -/
structure RaceState where
  attendance : List AttendanceRecord
  observed : List (Nat × Nat)
  responses : List (Nat × Response)
deriving DecidableEq

/-- The count a given request observed with its SELECT, when it has
already performed it. -/
def observedCount (obs : List (Nat × Nat)) (pid : Nat) : Option Nat :=
  (obs.find? (fun q => q.1 == pid)).map (fun q => q.2)

/-- One micro step of the interleaved execution against a fixed
tracks_sessions row: the SELECT records the count as of now, the INSERT
applies the capacity test of the handler to the count its own SELECT
observed earlier, not to the current one. -/
def raceStep (s : SessionRow) (st : RaceState) (m : MicroStep) : RaceState :=
  match m with
  | .sel pid =>
      { st with observed := st.observed ++ [(pid, admittedCount st.attendance s.session_id)] }
  | .ins pid =>
      match observedCount st.observed pid with
      | none => st
      | some n =>
        if (n : Int) ≥ s.capacity then
          { st with responses := st.responses ++ [(pid, ⟨400, .error "Session is full"⟩)] }
        else
          { st with
              attendance := st.attendance ++ [⟨pid, s.session_id, none⟩],
              responses := st.responses ++ [(pid, ⟨200, .message "Check-in successful"⟩)] }

/-- Run an interleaving of check-in micro steps. -/
def runRace (s : SessionRow) (st : RaceState) (sched : List MicroStep) : RaceState :=
  sched.foldl (raceStep s) st

/-- The check-in handler never touches tracks_sessions. -/
theorem checkIn_sessions (st : CheckInState) (pid sid : Nat) :
    ((checkIn st pid sid).1).sessions = st.sessions := by
  unfold checkIn
  split
  · rfl
  · split <;> rfl

/-- Appending one attendance row raises the count of a session by one
exactly when the row belongs to it. -/
theorem admittedCount_append (att : List AttendanceRecord) (r : AttendanceRecord) (sid : Nat) :
    admittedCount (att ++ [r]) sid =
      admittedCount att sid + (if r.session_id = sid then 1 else 0) := by
  unfold admittedCount
  rw [List.filter_append, List.length_append]
  by_cases h : r.session_id = sid
  · simp [List.filter, h]
  · have hb : (r.session_id == sid) = false := by simp [h]
    simp [List.filter, hb, h]

/-- One sequential check-in preserves the capacity bound of any session
present in the catalog. -/
theorem checkIn_count_le (st : CheckInState) (pid sid' sid : Nat) (s : SessionRow)
    (hs : findSession st.sessions sid = some s)
    (h : (admittedCount st.attendance sid : Int) ≤ s.capacity) :
    (admittedCount ((checkIn st pid sid').1).attendance sid : Int) ≤ s.capacity := by
  unfold checkIn
  cases hfs : findSession st.sessions sid' with
  | none => simpa using h
  | some s' =>
      by_cases hge : (admittedCount st.attendance sid' : Int) ≥ s'.capacity
      · simpa [hge] using h
      · simp only [hge, if_false, reduceIte]
        rw [admittedCount_append]
        by_cases hsid : sid' = sid
        · subst hsid
          rw [hfs] at hs
          have hss : s' = s := by injection hs
          subst hss
          simp only [if_pos rfl]
          push_cast
          omega
        · simp [hsid]
          exact h

/-- Every session present in the catalog keeps its attendance count
within capacity across any sequence of sequential check-in requests,
given that it starts within capacity. -/
theorem runCheckIns_count_le (ops : List (Nat × Nat)) (st : CheckInState)
    (sid : Nat) (s : SessionRow)
    (hs : findSession st.sessions sid = some s)
    (h : (admittedCount st.attendance sid : Int) ≤ s.capacity) :
    (admittedCount (runCheckIns st ops).attendance sid : Int) ≤ s.capacity := by
  induction ops generalizing st with
  | nil => simpa [runCheckIns] using h
  | cons op rest ih =>
      have hs' : findSession ((checkIn st op.1 op.2).1).sessions sid = some s := by
        rw [checkIn_sessions]; exact hs
      have h' := checkIn_count_le st op.1 op.2 sid s hs h
      have hrec := ih ((checkIn st op.1 op.2).1) hs' h'
      simpa [runCheckIns, List.foldl_cons] using hrec

/-- C1: for a session present in the catalog, a check-in attempt made
when admitted_count + 1 would exceed capacity answers 400 "Session is
full" (the CapacityExceeded surface) and inserts no attendance row; as a
consequence, any sequence of check-in requests handled one after the
other keeps admitted_count at or below capacity when it starts there. -/
theorem checkIn_capacity_invariant (st : CheckInState) (ops : List (Nat × Nat))
    (pid sid : Nat) (s : SessionRow)
    (hs : findSession st.sessions sid = some s) :
    ((admittedCount st.attendance sid : Int) + 1 > s.capacity →
      checkIn st pid sid = (st, ⟨400, .error "Session is full"⟩)) ∧
    ((admittedCount st.attendance sid : Int) ≤ s.capacity →
      (admittedCount (runCheckIns st ops).attendance sid : Int) ≤ s.capacity) := by
  constructor
  · intro hfull
    have hge : (admittedCount st.attendance sid : Int) ≥ s.capacity := by omega
    unfold checkIn
    rw [hs]
    simp [hge]
  · intro h0
    exact runCheckIns_count_le ops st sid s hs h0

/-- C1 witness: on a capacity-2 session holding 2 attendance rows a
further check-in is refused and changes nothing, and three sequential
check-ins from an empty ledger end at or below capacity 2. -/
theorem checkIn_capacity_invariant_witness :
    checkIn ⟨[⟨1, 2⟩], [⟨5, 1, none⟩, ⟨6, 1, none⟩]⟩ 7 1 =
      (⟨[⟨1, 2⟩], [⟨5, 1, none⟩, ⟨6, 1, none⟩]⟩, ⟨400, .error "Session is full"⟩) ∧
    (admittedCount (runCheckIns ⟨[⟨1, 2⟩], []⟩ [(5, 1), (6, 1), (7, 1)]).attendance 1 : Int) ≤
      (⟨1, 2⟩ : SessionRow).capacity := by
  constructor
  · exact (checkIn_capacity_invariant ⟨[⟨1, 2⟩], [⟨5, 1, none⟩, ⟨6, 1, none⟩]⟩ [] 7 1 ⟨1, 2⟩
      (by decide)).1 (by decide)
  · exact (checkIn_capacity_invariant ⟨[⟨1, 2⟩], []⟩ [(5, 1), (6, 1), (7, 1)] 7 1 ⟨1, 2⟩
      (by decide)).2 (by decide)

/-- C2: the check-in handler issues its count-reading SELECT and its
INSERT as two separate un-transacted queries, so on a capacity-1 session
with an empty ledger two interleaved requests (both SELECTs before
either INSERT) each observe count 0, both insert, and both answer 200 —
where the claimed per-session atomicity would let exactly one succeed.
The final ledger holds 2 rows against capacity 1. -/
theorem checkIn_race_both_succeed :
    runRace ⟨1, 1⟩ ⟨[], [], []⟩ [.sel 7, .sel 8, .ins 7, .ins 8] =
      ⟨[⟨7, 1, none⟩, ⟨8, 1, none⟩], [(7, 0), (8, 0)],
        [(7, ⟨200, .message "Check-in successful"⟩),
         (8, ⟨200, .message "Check-in successful"⟩)]⟩ ∧
    admittedCount (runRace ⟨1, 1⟩ ⟨[], [], []⟩ [.sel 7, .sel 8, .ins 7, .ins 8]).attendance 1 = 2 := by
  decide

/-- C3: a second check-in for a pair that already has an attendance row
is not rejected: the handler never looks for an existing row of the pair
(and the table has no unique constraint on it), so the repeat call also
answers 200 and the pair ends with two attendance rows. -/
theorem checkIn_duplicate_pair_succeeds :
    (checkIn ⟨[⟨1, 2⟩], [⟨7, 1, none⟩]⟩ 7 1).2 = ⟨200, .message "Check-in successful"⟩ ∧
    ((checkIn ⟨[⟨1, 2⟩], [⟨7, 1, none⟩]⟩ 7 1).1.attendance.filter
        (fun r => r.participant_id == 7 && r.session_id == 1)).length = 2 := by
  decide

/-- C4: registering the same session twice is not a no-op: starting from
a NULL sessions_registered column, the first call stores "5" and the
second call changes it again, to "55,", so the second call does not
leave the column unchanged. -/
theorem registerSession_not_idempotent :
    (registerSession (registerSession [⟨1, "Ann", "ann@x.com", "h1", "q1", none⟩] 1 5).1 1 5).1 ≠
      (registerSession [⟨1, "Ann", "ann@x.com", "h1", "q1", none⟩] 1 5).1 ∧
    (registerSession [⟨1, "Ann", "ann@x.com", "h1", "q1", none⟩] 1 5).1 =
      [⟨1, "Ann", "ann@x.com", "h1", "q1", some "5"⟩] ∧
    (registerSession (registerSession [⟨1, "Ann", "ann@x.com", "h1", "q1", none⟩] 1 5).1 1 5).1 =
      [⟨1, "Ann", "ann@x.com", "h1", "q1", some "55,"⟩] := by
  decide

/-- C5: a successful check-in inserts the attendance row with
check_in_time left NULL (none) and answers only the bare message, with
no record in the body. -/
theorem checkIn_success_null_timestamp :
    checkIn ⟨[⟨1, 2⟩], []⟩ 7 1 =
      (⟨[⟨1, 2⟩], [⟨7, 1, none⟩]⟩, ⟨200, .message "Check-in successful"⟩) := by
  decide

/-- C6: a successful login places the entire participant row, its
password_hash column included, into the 200 response body. -/
theorem login_exposes_password_hash :
    login [⟨1, "Ann", "ann@x.com", "bcrypt:pw", "q1", none⟩]
        (fun pw h => h == "bcrypt:" ++ pw) "ann@x.com" "pw" =
      ⟨200, .loginSuccess "Login successful" ⟨1, "Ann", "ann@x.com", "bcrypt:pw", "q1", none⟩⟩ := by
  decide

/-- C7 counterexample: a second registration with an email already on
file is answered by the generic 500 body "Error registering participant"
— the catch-all of the handler — which is not a typed DuplicateEmail
error; the stored participant list is unchanged. -/
theorem register_duplicate_email_not_typed :
    registerUser [⟨1, "Ann", "ann@x.com", "h1", "q1", none⟩] 2
        (fun p => "bcrypt:" ++ p) (fun n e => n ++ "\n" ++ e) true "Bob" "ann@x.com" "pw2" =
      ([⟨1, "Ann", "ann@x.com", "h1", "q1", none⟩],
        ⟨500, .error "Error registering participant"⟩) ∧
    ResponseBody.error "Error registering participant" ≠ ResponseBody.error "DuplicateEmail" := by
  decide

/-- C7 amended: when the email is already on file the INSERT is rejected
by the UNIQUE(email) constraint, the handler answers the generic 500
error body, no new participant is created, and every stored row — the
first registrant in particular — is unchanged. -/
theorem register_duplicate_email_generic (db : List Participant) (nextId : Nat)
    (hash : String → String) (mkQr : String → String → String) (mailOk : Bool)
    (name email password : String)
    (hdup : db.any (fun p => p.email == email) = true) :
    registerUser db nextId hash mkQr mailOk name email password =
      (db, ⟨500, .error "Error registering participant"⟩) := by
  simp [registerUser, hdup]

/-- C7 witness: the duplicate-email outcome at a concrete store. -/
theorem register_duplicate_email_generic_witness :
    registerUser [⟨1, "Ann", "ann@x.com", "h1", "q1", none⟩] 2
        (fun p => "bc:" ++ p) (fun n e => n ++ e) true "Carol" "ann@x.com" "pw3" =
      ([⟨1, "Ann", "ann@x.com", "h1", "q1", none⟩],
        ⟨500, .error "Error registering participant"⟩) :=
  register_duplicate_email_generic _ _ _ _ _ _ _ _ (by decide)

/-- C8 counterexample: with a fresh email and a failing mail send, the
participant row is persisted yet the caller receives the generic 500
error body, not a success report. -/
theorem register_mail_failure_not_success :
    registerUser [] 1 (fun p => "bcrypt:" ++ p) (fun n e => n ++ "\n" ++ e) false
        "Ann" "ann@x.com" "pw" =
      ([⟨1, "Ann", "ann@x.com", "bcrypt:pw", "Ann\nann@x.com", none⟩],
        ⟨500, .error "Error registering participant"⟩) := by
  decide

/-- C8 amended: when the notification send fails after the INSERT, the
new participant row stays in the store (no rollback), but the operation
answers the generic 500 error body instead of reporting success. -/
theorem register_mail_failure_persists_row (db : List Participant) (nextId : Nat)
    (hash : String → String) (mkQr : String → String → String)
    (name email password : String)
    (hfresh : db.any (fun p => p.email == email) = false) :
    registerUser db nextId hash mkQr false name email password =
      (db ++ [⟨nextId, name, email, hash password, mkQr name email, none⟩],
        ⟨500, .error "Error registering participant"⟩) := by
  simp [registerUser, hfresh]

/-- C8 witness: the failing-mail outcome at a concrete store. -/
theorem register_mail_failure_persists_row_witness :
    registerUser [⟨1, "Ann", "ann@x.com", "h1", "q1", none⟩] 2
        (fun p => "bc:" ++ p) (fun n e => n ++ e) false "Bob" "bob@x.com" "pw2" =
      ([⟨1, "Ann", "ann@x.com", "h1", "q1", none⟩,
        ⟨2, "Bob", "bob@x.com", "bc:pw2", "Bobbob@x.com", none⟩],
        ⟨500, .error "Error registering participant"⟩) :=
  register_mail_failure_persists_row _ _ _ _ _ _ _ (by decide)

/-- C9: session registration with a participant_id matching no row
leaves the store unchanged yet still answers 200 — no NotFound — and
with an existing participant the session_id is never validated: a
nonexistent session 999 is appended and the call also answers 200. -/
theorem registerSession_missing_ids_report_success :
    registerSession [] 1 5 = ([], ⟨200, .message "Session registration successful"⟩) ∧
    registerSession [⟨1, "Ann", "ann@x.com", "h1", "q1", none⟩] 1 999 =
      ([⟨1, "Ann", "ann@x.com", "h1", "q1", some "999"⟩],
        ⟨200, .message "Session registration successful"⟩) := by
  decide

/-- C10: a login with an email matching no stored row answers 401 with
the same body as a login with a stored email and a rejected password;
the handler is total (the short-circuit skips the password comparison
when there is no row), so the two cases are indistinguishable to the
caller. -/
theorem login_unknown_email_indistinguishable (db : List Participant)
    (verify : String → String → Bool) (e1 p1 e2 p2 : String) (q : Participant)
    (h1 : db.find? (fun p => p.email == e1) = none)
    (hq : db.find? (fun p => p.email == e2) = some q)
    (hv : verify p2 q.password_hash = false) :
    login db verify e1 p1 = ⟨401, .error "Invalid email or password"⟩ ∧
    login db verify e1 p1 = login db verify e2 p2 := by
  have ha : login db verify e1 p1 = ⟨401, .error "Invalid email or password"⟩ := by
    unfold login
    rw [h1]
  refine ⟨ha, ?_⟩
  rw [ha]
  unfold login
  rw [hq]
  simp [hv]

/-- C10 witness: unknown email bob@x.com and wrong password for
ann@x.com produce the same 401 response. -/
theorem login_unknown_email_indistinguishable_witness :
    login [⟨1, "Ann", "ann@x.com", "bcrypt:pw", "q1", none⟩]
        (fun pw h => h == "bcrypt:" ++ pw) "bob@x.com" "pw" =
      ⟨401, .error "Invalid email or password"⟩ ∧
    login [⟨1, "Ann", "ann@x.com", "bcrypt:pw", "q1", none⟩]
        (fun pw h => h == "bcrypt:" ++ pw) "bob@x.com" "pw" =
      login [⟨1, "Ann", "ann@x.com", "bcrypt:pw", "q1", none⟩]
        (fun pw h => h == "bcrypt:" ++ pw) "ann@x.com" "wrong" :=
  login_unknown_email_indistinguishable _ _ _ _ _ _
    ⟨1, "Ann", "ann@x.com", "bcrypt:pw", "q1", none⟩ (by decide) (by decide) (by decide)
